import Mathlib

/-!
Verification development for the document-grounded chatbot in `app.py`.

The Python program is a Streamlit application.  We give a shallow embedding
of its pure logic:

* `extract_text_from_pdf`, `extract_text_from_docx`, `process_document_content`
  embed the document-extraction and aggregation functions (app.py lines 23-90).
  A PDF/DOCX file is represented by its parse outcome: either the library
  succeeds and yields the page texts (resp. paragraph and table-cell texts),
  or it raises, which the Python code catches, reporting the error and
  returning the empty string.
* `chatbot_interface` embeds the per-rerun body of the chat interface
  (app.py lines 94-215): Streamlit session state becomes an explicit
  `SessionState` record, the remote Gemini chat handle becomes a `Chat`
  record storing its seeded history and the prompts later forwarded with
  `send_message`, and the streamed response of one query becomes a
  `StreamOutcome` (either a chunk list consumed to completion, or a failure
  mid-stream).  The function returns the new state together with the list
  of error messages surfaced with `st.error` on that path.
* `language_sync`, `reset_chat`, `rerun` embed the per-rerun body of `main`
  (app.py lines 219-338): language-change invalidation, document processing,
  the chat interface call and the reset button.

Python truthiness of a string (`if text.strip():`, `if prompt:`) is embedded
by `hasNonSpace` and by explicit comparison with `""`.  `"sep".join(parts)`
is embedded by `pyJoin`.
-/

/-- Python `str.isspace`-style whitespace, restricted to the characters
`str.strip()` removes by default. -/
def pyWhitespace (c : Char) : Bool :=
  c = ' ' || c = '\t' || c = '\n' || c = '\x0d' || c = '\x0b' || c = '\x0c'

/-- Truthiness of `s.strip()` in Python: `s` contains a non-whitespace
character. -/
def hasNonSpace (s : String) : Bool :=
  s.data.any (fun c => !pyWhitespace c)

/-- Python `sep.join(parts)`. -/
def pyJoin (sep : String) : List String → String
  | [] => ""
  | [x] => x
  | x :: y :: xs => x ++ sep ++ pyJoin sep (y :: xs)

/-- Parse outcome of a PDF file handed to `PyPDF2.PdfReader`: either the
reader succeeds and `page.extract_text() or ""` yields one string per page
(in document order), or some call raises. -/
inductive PdfFile where
  | ok (pages : List String)
  | corrupt (err : String)
deriving DecidableEq

/-- Parse outcome of a DOCX file handed to `docx.Document`: either the
library yields the paragraph texts and the table/row/cell texts, or some
call raises. -/
inductive DocxFile where
  | ok (paragraphs : List String) (tables : List (List (List String)))
  | corrupt (err : String)
deriving DecidableEq

/-- The page loop of `extract_text_from_pdf` (app.py lines 27-31): running
index `i`, keep every page whose text survives `strip()`, prefixed with its
1-based page number. -/
def pdfPageLoop : Nat → List String → List String
  | _, [] => []
  | i, page :: rest =>
    if hasNonSpace page then
      ("[Page " ++ toString (i + 1) ++ "]\n" ++ page) :: pdfPageLoop (i + 1) rest
    else
      pdfPageLoop (i + 1) rest

/-- Embedding of `extract_text_from_pdf` (app.py lines 23-37).  On any exception the
Python code reports the error with `st.error` and returns `""`. -/
def extract_text_from_pdf : PdfFile → String
  | .ok pages => pyJoin "\n\n" (pdfPageLoop 0 pages)
  | .corrupt _ => ""

/-- Embedding of `extract_text_from_docx` (app.py lines 39-60): paragraph texts first,
then table cells (tables top-to-bottom, rows top-to-bottom, cells
left-to-right), keeping only those that survive `strip()`; `""` on any
exception. -/
def extract_text_from_docx : DocxFile → String
  | .ok paragraphs tables =>
    pyJoin "\n\n"
      (paragraphs.filter hasNonSpace ++ tables.flatten.flatten.filter hasNonSpace)
  | .corrupt _ => ""

/-- The literal section separator of `process_document_content`
(app.py line 82). -/
def sectionSeparator : String := "\n\n--- End of Document Section ---\n\n"

/-- Embedding of `process_document_content` (app.py lines 64-90): extract the PDF (when
provided) and the DOCX (when provided), keep the texts that survive
`strip()`, join them with `sectionSeparator`, and return `None` when the
joined string has no content. -/
def process_document_content (pdf_file : Option PdfFile) (docx_file : Option DocxFile) :
    Option String :=
  let pdfPart : List String :=
    match pdf_file with
    | none => []
    | some f =>
      let pdf_text := extract_text_from_pdf f
      if hasNonSpace pdf_text then [pdf_text] else []
  let docxPart : List String :=
    match docx_file with
    | none => []
    | some f =>
      let docx_text := extract_text_from_docx f
      if hasNonSpace docx_text then [docx_text] else []
  let final_content_string := pyJoin sectionSeparator (pdfPart ++ docxPart)
  if !hasNonSpace final_content_string then none else some final_content_string

/-- Specification-side description of aggregation inputs: the extracted
texts of the provided documents, in PDF-then-DOCX order, with the texts
that do not survive `strip()` dropped. -/
def survivingTexts (pdf_file : Option PdfFile) (docx_file : Option DocxFile) : List String :=
  ((pdf_file.map extract_text_from_pdf).toList ++
    (docx_file.map extract_text_from_docx).toList).filter hasNonSpace

/-- Specification-side description of the PDF page fragments: the non-blank
pages, in document order, each prefixed with its 1-based page index. -/
def pdfFragments (pages : List String) : List String :=
  (pages.enum.filter (fun p => hasNonSpace p.2)).map
    (fun p => "[Page " ++ toString (p.1 + 1) ++ "]\n" ++ p.2)

/-- A transcript entry, `{"role": ..., "content": ...}` (app.py lines 195, 208). -/
structure Msg where
  role : String
  content : String
deriving DecidableEq

/-- One entry of the Gemini chat history, `{"role": ..., "parts": [{"text": ...}]}`
(app.py lines 163-178), flattened to its role and its single text part. -/
structure GMsg where
  role : String
  text : String
deriving DecidableEq

/-- The remote chat handle returned by `model.start_chat`: the priming
history it was created with, plus the prompts later forwarded to it with
`send_message`, in order. -/
structure Chat where
  history : List GMsg
  sent : List String
deriving DecidableEq

/-- Everything the remote model sees on this chat, in order: the seeded
history followed by the forwarded user prompts. -/
def modelVisible (c : Chat) : List GMsg :=
  c.history ++ c.sent.map (fun p => { role := "user", text := p })

/-- Outcome of one streamed `send_message` call: either the chunk iteration
runs to completion (the `text` of a chunk may be `None`), or the call or the
iteration raises after consuming a prefix of chunks. -/
inductive StreamOutcome where
  | ok (chunks : List (Option String))
  | fail (consumed : List (Option String)) (err : String)
deriving DecidableEq

/-- Truthiness cast `chunk.text if chunk.text else ""` (app.py line 205). -/
def chunkText : Option String → String
  | none => ""
  | some t => if t = "" then "" else t

/-- The accumulation loop of app.py lines 204-205: `full_response += ...`. -/
def accumulate (chunks : List (Option String)) : String :=
  chunks.foldl (fun acc c => acc ++ chunkText c) ""

/-- The session state `st.session_state`, with the keys the program uses made explicit
(`none` = key absent), plus the ambient widget state (the uploaded files)
that none of the session-state code touches. -/
structure SessionState where
  language : Option String
  chat : Option Chat
  messages : Option (List Msg)
  files : List String
deriving DecidableEq

/-- Session state at process start: no key set. -/
def initialState : SessionState :=
  { language := none, chat := none, messages := none, files := [] }

/-- The Marathi system instruction (app.py lines 121-127). -/
def system_message_mr : String :=
  "तुम्ही एक मदतगार सहाय्यक आहात. " ++
  "तुमचे प्राथमिक कार्य प्रदान केलेल्या दस्तऐवज संदर्भावर आधारित वापरकर्त्याच्या प्रश्नांची उत्तरे देणे आहे. " ++
  "जर प्रश्नाचे उत्तर प्रदान केलेल्या दस्तऐवजांमध्ये आढळले नाही, तर तुम्ही स्पष्टपणे सांगा: \x27ही माहिती प्रदान केलेल्या दस्तऐवजांमध्ये उपलब्ध नाही.\x27 " ++
  "जर माहिती दस्तऐवजांमध्ये नसेल तर सामान्य ज्ञानातून उत्तर देण्याचा प्रयत्न करू नका. " ++
  "तुम्ही मराठी भाषेत उत्तर द्या."

/-- The Marathi document-injection message (app.py lines 129-135). -/
def document_message_mr (document_content : String) : String :=
  "दस्तऐवज सामग्री सुरू\n\n" ++
  document_content ++ "\n\n" ++
  "दस्तऐवज सामग्री समाप्त\n\n" ++
  "कृपया माझ्या प्रश्नांची उत्तरे देण्यासाठी फक्त दस्तऐवज सामग्री सुरू आणि दस्तऐवज सामग्री समाप्त यांच्या दरम्यान असलेली माहिती वापरा. " ++
  "जर माहिती दस्तऐवजात नसेल तर तसे सांगा."

/-- The two fabricated Marathi model acknowledgments (app.py lines 137-138). -/
def model_response1_mr : String :=
  "मी माझी भूमिका समजून घेतली आहे. मी फक्त दस्तऐवज सामग्रीवर आधारित प्रश्नांची उत्तरे देईन."

def model_response2_mr : String :=
  "मला दस्तऐवज सामग्री मिळाली आहे आणि मी तुमच्या प्रश्नांची उत्तरे देण्यासाठी त्याचा वापर करेन."

/-- The English system instruction (app.py lines 140-147). -/
def system_message_en : String :=
  "You are a helpful assistant. " ++
  "Your primary function is to answer user questions strictly based on the " ++
  "information contained in the provided document context. " ++
  "If the answer to a question cannot be found within the provided documents, " ++
  "you MUST explicitly state: \x27The information is not available in the provided documents.\x27 " ++
  "Do not attempt to answer from general knowledge if the information is not in the documents."

/-- The English document-injection message (app.py lines 149-155). -/
def document_message_en (document_content : String) : String :=
  "DOCUMENT CONTENT START\n\n" ++
  document_content ++ "\n\n" ++
  "DOCUMENT CONTENT END\n\n" ++
  "Please use ONLY the information between DOCUMENT CONTENT START and DOCUMENT CONTENT END " ++
  "to answer my questions. If the information is not in the document, say so."

/-- The two fabricated English model acknowledgments (app.py lines 157-158). -/
def model_response1_en : String :=
  "I understand my role. I\x27ll answer questions based strictly on the document content."

def model_response2_en : String :=
  "I\x27ve received the document content and will use it to answer your questions."

/-- Language dispatch of app.py line 120: `if language == "मराठी":`. -/
def system_message (language : String) : String :=
  if language = "मराठी" then system_message_mr else system_message_en

def document_message (language document_content : String) : String :=
  if language = "मराठी" then document_message_mr document_content
  else document_message_en document_content

def model_response1 (language : String) : String :=
  if language = "मराठी" then model_response1_mr else model_response1_en

def model_response2 (language : String) : String :=
  if language = "मराठी" then model_response2_mr else model_response2_en

/-- The `history=[...]` argument of `model.start_chat` (app.py lines 161-180):
system instruction, first acknowledgment, document injection, second
acknowledgment — identical shape in both language branches. -/
def seedHistory (document_content language : String) : List GMsg :=
  [ { role := "user", text := system_message language },
    { role := "model", text := model_response1 language },
    { role := "user", text := document_message language document_content },
    { role := "model", text := model_response2 language } ]

/-- app.py line 101. -/
def no_content_error (language : String) : String :=
  if language = "मराठी" then "दस्तऐवज सामग्री उपलब्ध नसल्यामुळे चॅटबॉट सुरू करू शकत नाही."
  else "Cannot start chatbot as document content is not available."

/-- app.py line 210. -/
def generation_error (language err : String) : String :=
  if language = "मराठी" then "संदेश निर्मितीदरम्यान त्रुटी: " ++ err
  else "Error during message generation: " ++ err

/-- app.py lines 288 and 300. -/
def processing_failed_error (language : String) : String :=
  if language = "मराठी" then "दस्तऐवज प्रक्रिया करण्यात अयशस्वी. कृपया वैध फाइल्ससह पुन्हा प्रयत्न करा."
  else "Failed to process document content. Please try again with valid files."

/-- Embedding of `chatbot_interface` (app.py lines 94-215), one rerun.  Returns the new
session state paired with the error messages surfaced with `st.error`.
`if "chat" not in st.session_state:` becomes the match on `st.chat` (an
existing handle is kept, otherwise `model.start_chat` seeds a fresh one);
likewise for `"messages"`.  A `prompt` of `none` means `st.chat_input`
returned nothing this rerun; `some p` with `p = ""` is falsy in Python and
skips the walrus-guarded block.  On a processed prompt the user entry is
appended first, then `send_message` forwards the prompt; on a completed
stream the accumulated reply is appended as the assistant entry, and on a
mid-stream failure the exception handler surfaces the language-appropriate
error and appends nothing. -/
def chatbot_interface (st : SessionState) (document_content language : String)
    (prompt : Option String) (outcome : StreamOutcome) : SessionState × List String :=
  if document_content = "" then (st, [no_content_error language])
  else
    let c : Chat :=
      match st.chat with
      | some c => c
      | none => { history := seedHistory document_content language, sent := [] }
    let msgs : List Msg :=
      match st.messages with
      | some m => m
      | none => []
    let st1 : SessionState := { st with chat := some c, messages := some msgs }
    match prompt with
    | none => (st1, [])
    | some p =>
      if p = "" then (st1, [])
      else
        let msgs1 := msgs ++ [{ role := "user", content := p }]
        let st2 : SessionState :=
          { st1 with
              messages := some msgs1,
              chat := some { history := c.history, sent := c.sent ++ [p] } }
        match outcome with
        | .ok chunks =>
          ({ st2 with
              messages := some (msgs1 ++ [{ role := "assistant", content := accumulate chunks }]) },
            [])
        | .fail _ e => (st2, [generation_error language e])

/-- A guarded `pop`: `if key in st.session_state: st.session_state.pop(key)`
(app.py lines 272-275, 326-329). -/
def guarded_pop {α : Type} (x : Option α) : Option α :=
  match x with
  | some _ => none
  | none => x

/-- An unguarded `dict.pop(key)`: raises `KeyError` when the key is absent,
otherwise removes it. -/
def dict_pop {α : Type} (x : Option α) : Except String (Option α) :=
  match x with
  | some _ => Except.ok none
  | none => Except.error "KeyError"

/-- The language bookkeeping of `main` (app.py lines 266-275): store the
selected language on first run; on a change, store the new language and
clear the `messages` and `chat` keys (each pop guarded by a membership
check). -/
def language_sync (st : SessionState) (language : String) : SessionState :=
  match st.language with
  | none => { st with language := some language }
  | some old =>
    if language ≠ old then
      { st with
          language := some language,
          messages := guarded_pop st.messages,
          chat := guarded_pop st.chat }
    else st

/-- The Reset Chat button handler (app.py lines 323-334): clear the
`messages` and `chat` keys, each pop guarded by a membership check. -/
def reset_chat (st : SessionState) : SessionState :=
  { st with messages := guarded_pop st.messages, chat := guarded_pop st.chat }

/-- Truthiness of `uploaded_pdf or uploaded_docx` (app.py line 306): at
least one file object is present. -/
def filesUploaded (pdf : Option PdfFile) (docx : Option DocxFile) : Bool :=
  pdf.isSome || docx.isSome

/-- One rerun of `main` (app.py lines 219-338): sync the language selection,
then — when at least one file is uploaded (`if uploaded_pdf or uploaded_docx:`)
— process the documents; on content, run the chat interface with the stored
language and finally apply the reset button when it was clicked this rerun;
on no content, surface the processing-failed error. -/
def rerun (st : SessionState) (language : String) (pdf : Option PdfFile)
    (docx : Option DocxFile) (prompt : Option String) (outcome : StreamOutcome)
    (resetClicked : Bool) : SessionState × List String :=
  let st1 := language_sync st language
  let lang := st1.language.getD language
  if filesUploaded pdf docx then
    match process_document_content pdf docx with
    | none => (st1, [processing_failed_error lang])
    | some content =>
      let r := chatbot_interface st1 content lang prompt outcome
      if resetClicked then (reset_chat r.1, r.2) else r
  else (st1, [])

/-- The observable inputs of one rerun. -/
structure Op where
  language : String
  pdf : Option PdfFile
  docx : Option DocxFile
  prompt : Option String
  outcome : StreamOutcome
  resetClicked : Bool

def runOp (st : SessionState) (op : Op) : SessionState :=
  (rerun st op.language op.pdf op.docx op.prompt op.outcome op.resetClicked).1

def runOps (st : SessionState) (ops : List Op) : SessionState :=
  ops.foldl runOp st

/-- Substring test on character lists: `needle` occurs contiguously in the
second list. -/
def occursIn (needle : List Char) : List Char → Bool
  | [] => needle.isEmpty
  | c :: rest => needle.isPrefixOf (c :: rest) || occursIn needle rest

/-- Character-wise lower-casing of a string. -/
def lowerChars (s : String) : List Char :=
  s.data.map Char.toLower

/-- Modelled from the spec: the Auxiliary Matcher of spec §4.4 (the scan of
the `meta_images/` assets directory) is not implemented in `src/app.py`;
only the spec describes it.  Its input is the assets directory — `none`
when the directory is absent, otherwise the entries in directory-listing
order, each as (filename sans extension, asset path) — and a response
text.  It returns the first entry whose label occurs case-insensitively as
a substring of the response, and `none` when no entry matches. -/
def match_meta_image (assets : Option (List (String × String))) (response : String) :
    Option (String × String) :=
  match assets with
  | none => none
  | some entries =>
    entries.find? (fun e => occursIn (lowerChars e.1) (lowerChars response))

/-- A sample already-seeded chat handle, for concrete instantiations. -/
def sampleChat : Chat :=
  { history := seedHistory "sample document" "English", sent := [] }

/-- A sample session state right after seeding: chat created, empty
transcript. -/
def sampleSeeded : SessionState :=
  { language := some "English", chat := some sampleChat, messages := some [], files := [] }

/-- The rerun that uploads document A and asks `q1`. -/
def staleOp1 : Op :=
  { language := "English", pdf := some (.ok ["DocA"]), docx := none,
    prompt := some "q1", outcome := .ok [some "a1"], resetClicked := false }

/-- The rerun that replaces the upload with document B and asks `q2`,
without changing the language and without pressing reset. -/
def staleOp2 : Op :=
  { language := "English", pdf := some (.ok ["DocB"]), docx := none,
    prompt := some "q2", outcome := .ok [some "a2"], resetClicked := false }

/-- A sample rerun asking one question over one document. -/
def sampleOp : Op :=
  { language := "English", pdf := some (.ok ["Doc"]), docx := none,
    prompt := some "hello", outcome := .ok [some "world"], resetClicked := false }

/-- What one rerun may legitimately contribute to the transcript: the
submitted non-empty prompt of the rerun itself as a user entry, or the accumulated
text of its successfully completed stream as an assistant entry. -/
def stepGenuine (op : Op) (m : Msg) : Prop :=
  (m.role = "user" ∧ op.prompt = some m.content ∧ m.content ≠ "") ∨
  (m.role = "assistant" ∧ ∃ chunks, op.outcome = .ok chunks ∧ m.content = accumulate chunks)

/-- A transcript entry is genuine for a run when some rerun of the run
contributed it. -/
def genuineEntry (ops : List Op) (m : Msg) : Prop :=
  ∃ op ∈ ops, stepGenuine op m

theorem hasNonSpace_append (a b : String) :
    hasNonSpace (a ++ b) = (hasNonSpace a || hasNonSpace b) := by
  simp [hasNonSpace, String.data_append a b, List.any_append]

theorem pdfPageLoop_eq_enumFrom (pages : List String) :
    ∀ i, pdfPageLoop i pages =
      ((pages.enumFrom i).filter (fun p => hasNonSpace p.2)).map
        (fun p => "[Page " ++ toString (p.1 + 1) ++ "]\n" ++ p.2) := by
  induction pages with
  | nil => intro i; simp [pdfPageLoop, List.enumFrom]
  | cons page rest ih =>
    intro i
    by_cases h : hasNonSpace page
    · simp [pdfPageLoop, List.enumFrom, h, List.filter_cons, ih (i + 1)]
    · simp [pdfPageLoop, List.enumFrom, h, List.filter_cons, ih (i + 1)]

theorem pyJoin_head_hasNonSpace (sep x : String) (xs : List String)
    (h : hasNonSpace x = true) : hasNonSpace (pyJoin sep (x :: xs)) = true := by
  cases xs with
  | nil => simpa [pyJoin] using h
  | cons y ys => simp [pyJoin, hasNonSpace_append, h]

theorem process_document_content_eq_survivingTexts (pdf : Option PdfFile)
    (docx : Option DocxFile) :
    process_document_content pdf docx =
      if !hasNonSpace (pyJoin sectionSeparator (survivingTexts pdf docx)) then none
      else some (pyJoin sectionSeparator (survivingTexts pdf docx)) := by
  cases pdf with
  | none => cases docx <;> simp [process_document_content, survivingTexts, List.filter_cons]
  | some f =>
    cases docx with
    | none => simp [process_document_content, survivingTexts, List.filter_cons]
    | some g =>
      by_cases h1 : hasNonSpace (extract_text_from_pdf f) <;>
        by_cases h2 : hasNonSpace (extract_text_from_docx g) <;>
          simp [process_document_content, survivingTexts, List.filter_cons, h1, h2]

/-- C7: `process_document_content` joins the surviving (non-blank) extracted
texts, in PDF-then-DOCX order, with the literal section separator — so a
single surviving text is returned verbatim, with no separator — and returns
`none` exactly when no text survives. -/
theorem claim7_aggregation (pdf : Option PdfFile) (docx : Option DocxFile) :
    (process_document_content pdf docx =
      if survivingTexts pdf docx = [] then none
      else some (pyJoin sectionSeparator (survivingTexts pdf docx))) ∧
    (∀ t, survivingTexts pdf docx = [t] → process_document_content pdf docx = some t) := by
  have hall : ∀ x ∈ survivingTexts pdf docx, hasNonSpace x := by
    intro x hx
    exact List.of_mem_filter hx
  have h := process_document_content_eq_survivingTexts pdf docx
  constructor
  · rw [h]
    cases hl : survivingTexts pdf docx with
    | nil => simp [pyJoin, hasNonSpace]
    | cons x xs =>
      have hx : hasNonSpace x := hall x (by rw [hl]; exact List.mem_cons_self x xs)
      simp [pyJoin_head_hasNonSpace sectionSeparator x xs hx]
  · intro t ht
    have hx : hasNonSpace t := hall t (by rw [ht]; exact List.mem_cons_self t [])
    rw [h, ht]
    simp [pyJoin, hx]

/-- Witness for C7 at a concrete input: one PDF with one page, no DOCX. -/
theorem claim7_witness :
    process_document_content (some (PdfFile.ok ["Revenue: 5M"])) none =
      some "[Page 1]\nRevenue: 5M" :=
  (claim7_aggregation (some (PdfFile.ok ["Revenue: 5M"])) none).2
    "[Page 1]\nRevenue: 5M" (by decide)

/-- C8: PDF extraction keeps the non-blank pages in document order, each
prefixed with its 1-based page index; a whole-document parse failure yields
the empty string (the error having been reported with `st.error`) instead of
raising, and aggregation of the remaining documents proceeds as if no PDF
had been supplied. -/
theorem claim8_pdf_extraction :
    (∀ pages, extract_text_from_pdf (.ok pages) = pyJoin "\n\n" (pdfFragments pages)) ∧
    (∀ err, extract_text_from_pdf (.corrupt err) = "") ∧
    (∀ err docx, process_document_content (some (.corrupt err)) docx =
      process_document_content none docx) := by
  refine ⟨?_, ?_, ?_⟩
  · intro pages
    simp [extract_text_from_pdf, pdfFragments, pdfPageLoop_eq_enumFrom pages 0, List.enum]
  · intro err
    rfl
  · intro err docx
    have h : hasNonSpace "" = false := by decide
    simp [process_document_content, extract_text_from_pdf, h]

/-- C5: seeding is idempotent.  When the session already holds a chat
handle, running the chat interface again (no intervening reset) keeps that
exact handle — no second `start_chat`, so its seeded history (and with it
the document-injection message) is not delivered a second time — and
running the interface twice equals running it once. -/
theorem claim5_seed_idempotent (st : SessionState) (d l : String) (oc oc' : StreamOutcome)
    (hd : d ≠ "") :
    (∀ c, st.chat = some c → ((chatbot_interface st d l none oc).1).chat = some c) ∧
    ((chatbot_interface ((chatbot_interface st d l none oc).1) d l none oc').1 =
      (chatbot_interface st d l none oc).1) := by
  constructor
  · intro c hc
    simp [chatbot_interface, hd, hc]
  · cases st with
    | mk lang chat msgs files =>
      cases chat <;> cases msgs <;> simp [chatbot_interface, hd]

/-- Witness for C5: an already-seeded session keeps its chat handle. -/
theorem claim5_witness :
    ((chatbot_interface sampleSeeded "sample document" "English" none (.ok [])).1).chat =
      some sampleChat :=
  (claim5_seed_idempotent sampleSeeded "sample document" "English" (.ok []) (.ok [])
      (by decide)).1 sampleChat rfl

/-- C4: a freshly created chat session is seeded so that the model sees the
language-specific system instruction at position 0 and the document-injection
message at position 2, and every forwarded user question strictly after the
four priming messages; the shape is the same for both language settings,
since `l` is arbitrary. -/
theorem claim4_seed_ordering (st : SessionState) (d l : String) (prompt : Option String)
    (oc : StreamOutcome) (hc : st.chat = none) (hd : d ≠ "") :
    ∃ c, ((chatbot_interface st d l prompt oc).1).chat = some c ∧
      c.history = seedHistory d l ∧
      (modelVisible c).take 4 =
        [ { role := "user", text := system_message l },
          { role := "model", text := model_response1 l },
          { role := "user", text := document_message l d },
          { role := "model", text := model_response2 l } ] ∧
      (modelVisible c).drop 4 = c.sent.map (fun p => { role := "user", text := p }) := by
  cases prompt with
  | none =>
    exact ⟨{ history := seedHistory d l, sent := [] },
      by simp [chatbot_interface, hd, hc], rfl, rfl, rfl⟩
  | some p =>
    by_cases hp : p = ""
    · exact ⟨{ history := seedHistory d l, sent := [] },
        by simp [chatbot_interface, hd, hc, hp], rfl, rfl, rfl⟩
    · cases oc with
      | ok chunks =>
        exact ⟨{ history := seedHistory d l, sent := [p] },
          by simp [chatbot_interface, hd, hc, hp], rfl, rfl, rfl⟩
      | fail consumed e =>
        exact ⟨{ history := seedHistory d l, sent := [p] },
          by simp [chatbot_interface, hd, hc, hp], rfl, rfl, rfl⟩

/-- Witness for C4: fresh Marathi session with one question. -/
theorem claim4_witness :
    ∃ c, ((chatbot_interface initialState "doc" "मराठी" (some "q") (.ok [])).1).chat = some c ∧
      c.history = seedHistory "doc" "मराठी" ∧
      (modelVisible c).take 4 =
        [ { role := "user", text := system_message "मराठी" },
          { role := "model", text := model_response1 "मराठी" },
          { role := "user", text := document_message "मराठी" "doc" },
          { role := "model", text := model_response2 "मराठी" } ] ∧
      (modelVisible c).drop 4 = c.sent.map (fun p => { role := "user", text := p }) :=
  claim4_seed_ordering initialState "doc" "मराठी" (some "q") (.ok []) rfl (by decide)

/-- Counterexample to C2: the prompt `" "` is whitespace-only (empty after
trimming), yet the handler appends it to the transcript and forwards it to
the model with `send_message` — the walrus guard `if prompt :=` only filters
the falsy prompt `""`, it does not trim. -/
theorem claim2_counterexample :
    hasNonSpace " " = false ∧
    sampleSeeded.messages = some [] ∧
    sampleSeeded.chat = some { history := seedHistory "sample document" "English", sent := [] } ∧
    ((chatbot_interface sampleSeeded "sample document" "English" (some " ")
        (.ok [some "reply"])).1).messages =
      some [{ role := "user", content := " " },
            { role := "assistant", content := "reply" }] ∧
    ((chatbot_interface sampleSeeded "sample document" "English" (some " ")
        (.ok [some "reply"])).1).chat =
      some { history := seedHistory "sample document" "English", sent := [" "] } :=
  ⟨by decide, rfl, rfl, rfl, rfl⟩

/-- C2 as amended: only an absent prompt or the empty-string prompt is a
no-op — the entry list of the transcript is unchanged (an absent `messages` key
is initialized to the empty list, not appended to), no prompt is forwarded
to the model, and no error is surfaced; a whitespace-only prompt is *not*
ignored. -/
theorem claim2_amended_empty_prompt_noop (st : SessionState) (d l : String)
    (oc oc' : StreamOutcome) :
    chatbot_interface st d l (some "") oc = chatbot_interface st d l none oc' ∧
    (d ≠ "" →
      ((chatbot_interface st d l (some "") oc).1).messages.getD [] = st.messages.getD [] ∧
      ((chatbot_interface st d l (some "") oc).1).chat.elim [] Chat.sent =
        st.chat.elim [] Chat.sent ∧
      (chatbot_interface st d l (some "") oc).2 = []) := by
  constructor
  · by_cases hd : d = "" <;> simp [chatbot_interface, hd]
  · intro hd
    cases hc : st.chat <;> cases hm : st.messages <;>
      simp [chatbot_interface, hd, hc, hm, Option.elim]

/-- Witness for C2 (amended): empty prompt leaves the transcript list
unchanged. -/
theorem claim2_witness :
    ((chatbot_interface sampleSeeded "sample document" "English" (some "")
        (.ok [])).1).messages.getD [] = sampleSeeded.messages.getD [] :=
  ((claim2_amended_empty_prompt_noop sampleSeeded "sample document" "English" (.ok [])
      (.ok [])).2 (by decide)).1

/-- C6: when the stream fails mid-accumulation, the user message was already
appended (and the prompt already forwarded) before the failure, no assistant
entry is appended for the turn, the language-appropriate error message is
surfaced, the function still returns a state (nothing propagates), and the
same chat handle answers the next query normally. -/
theorem claim6_stream_failure (st : SessionState) (c : Chat) (t : List Msg)
    (d l p : String) (consumed : List (Option String)) (e : String)
    (hc : st.chat = some c) (hm : st.messages = some t) (hd : d ≠ "") (hp : p ≠ "") :
    ((chatbot_interface st d l (some p) (.fail consumed e)).1).messages =
      some (t ++ [{ role := "user", content := p }]) ∧
    ((chatbot_interface st d l (some p) (.fail consumed e)).1).chat =
      some { history := c.history, sent := c.sent ++ [p] } ∧
    (chatbot_interface st d l (some p) (.fail consumed e)).2 = [generation_error l e] ∧
    (∀ (q : String) (chunks : List (Option String)), q ≠ "" →
      ((chatbot_interface ((chatbot_interface st d l (some p) (.fail consumed e)).1)
          d l (some q) (.ok chunks)).1).messages =
        some (t ++ [{ role := "user", content := p }, { role := "user", content := q },
                    { role := "assistant", content := accumulate chunks }])) := by
  refine ⟨?_, ?_, ?_, ?_⟩
  · simp [chatbot_interface, hc, hm, hd, hp]
  · simp [chatbot_interface, hc, hm, hd, hp]
  · simp [chatbot_interface, hc, hm, hd, hp]
  · intro q chunks hq
    simp [chatbot_interface, hc, hm, hd, hp, hq]

/-- Witness for C6: a failed first turn leaves exactly the orphaned user
message. -/
theorem claim6_witness :
    ((chatbot_interface sampleSeeded "sample document" "English" (some "q")
        (.fail [] "boom")).1).messages = some [{ role := "user", content := "q" }] := by
  have h := (claim6_stream_failure sampleSeeded sampleChat [] "sample document" "English"
      "q" [] "boom" rfl rfl (by decide) (by decide)).1
  simpa using h

theorem guarded_pop_eq_none {α : Type} (x : Option α) : guarded_pop x = none := by
  cases x <;> rfl

/-- C10: both reset paths only remove the `chat` and `messages` keys (the
language-change path additionally stores the new language); the stored
language (for the button path), and the uploaded files in all cases, are
untouched; an unchanged language leaves the whole state untouched; and the
membership-guarded pop never reaches the `KeyError` of a raw `dict.pop`,
since under the guard the raw pop succeeds. -/
theorem claim10_reset_frame (st : SessionState) (language old : String) :
    ((reset_chat st).chat = none ∧ (reset_chat st).messages = none ∧
      (reset_chat st).language = st.language ∧ (reset_chat st).files = st.files) ∧
    (st.language = some old → language ≠ old →
      language_sync st language =
        { st with language := some language, chat := none, messages := none }) ∧
    (st.language = some old → language = old → language_sync st language = st) ∧
    (∀ (x : Option (List Msg)), x.isSome → dict_pop x = Except.ok (guarded_pop x)) ∧
    (∀ (x : Option Chat), x.isSome → dict_pop x = Except.ok (guarded_pop x)) := by
  refine ⟨⟨?_, ?_, ?_, ?_⟩, ?_, ?_, ?_, ?_⟩
  · simp [reset_chat, guarded_pop_eq_none]
  · simp [reset_chat, guarded_pop_eq_none]
  · simp [reset_chat]
  · simp [reset_chat]
  · intro hl hne
    simp [language_sync, hl, hne, guarded_pop_eq_none]
  · intro hl heq
    simp [language_sync, hl, heq]
  · intro x hx
    cases x with
    | none => simp at hx
    | some a => rfl
  · intro x hx
    cases x with
    | none => simp at hx
    | some a => rfl

/-- Witness for C10: a language change on a seeded session clears exactly
the chat and transcript keys. -/
theorem claim10_witness :
    language_sync sampleSeeded "मराठी" =
      { sampleSeeded with language := some "मराठी", chat := none, messages := none } :=
  (claim10_reset_frame sampleSeeded "मराठी" "English").2.1 rfl (by decide)

set_option maxRecDepth 8000 in
/-- Counterexample to C1: two reruns with the same language but different
uploaded documents.  The query `q2` of the second rerun is forwarded on the very
chat handle seeded from document A — the history still says `DocA`, not the
current content `DocB` — so a query after a GroundingContext change *is*
answered over the previously seeded session. -/
theorem claim1_counterexample :
    (runOps initialState [staleOp1, staleOp2]).chat =
      some { history := seedHistory "[Page 1]\nDocA" "English", sent := ["q1", "q2"] } ∧
    process_document_content (some (.ok ["DocB"])) none = some "[Page 1]\nDocB" ∧
    seedHistory "[Page 1]\nDocA" "English" ≠ seedHistory "[Page 1]\nDocB" "English" :=
  ⟨rfl, rfl, by decide⟩

theorem process_document_content_hasNonSpace (pdf : Option PdfFile) (docx : Option DocxFile)
    (d : String) (h : process_document_content pdf docx = some d) : hasNonSpace d = true := by
  rw [process_document_content_eq_survivingTexts] at h
  split at h
  · exact Option.noConfusion h
  · rename_i hcond
    cases h
    simpa using hcond

theorem hasNonSpace_ne_empty {d : String} (h : hasNonSpace d = true) : d ≠ "" := by
  intro he
  subst he
  exact absurd h (by decide)

theorem chatbot_interface_fresh_chat (st : SessionState) (d l : String)
    (prompt : Option String) (oc : StreamOutcome) (hc : st.chat = none) (hd : d ≠ "") :
    ((chatbot_interface st d l prompt oc).1).chat =
      some { history := seedHistory d l,
             sent := match prompt with
                     | none => []
                     | some p => if p = "" then [] else [p] } := by
  cases prompt with
  | none => simp [chatbot_interface, hd, hc]
  | some p =>
    by_cases hp : p = ""
    · simp [chatbot_interface, hd, hc, hp]
    · cases oc <;> simp [chatbot_interface, hd, hc, hp]

theorem process_some_filesUploaded (pdf : Option PdfFile) (docx : Option DocxFile)
    (d : String) (h : process_document_content pdf docx = some d) :
    filesUploaded pdf docx = true := by
  by_cases hf : filesUploaded pdf docx = true
  · exact hf
  · have hb : pdf = none ∧ docx = none := by
      cases pdf <;> cases docx <;> simp [filesUploaded] at hf ⊢
    rcases hb with ⟨h1, h2⟩
    subst h1
    subst h2
    rw [show process_document_content none none = none from rfl] at h
    exact Option.noConfusion h

theorem rerun_after_language_change (st : SessionState) (oldLang newLang : String)
    (pdf : Option PdfFile) (docx : Option DocxFile) (prompt : Option String)
    (oc : StreamOutcome) (d : String) (hlang : st.language = some oldLang)
    (hne : newLang ≠ oldLang) (hproc : process_document_content pdf docx = some d) :
    rerun st newLang pdf docx prompt oc false =
      chatbot_interface { st with language := some newLang, chat := none, messages := none }
        d newLang prompt oc := by
  have hsync : language_sync st newLang =
      { st with language := some newLang, chat := none, messages := none } := by
    simp [language_sync, hlang, hne, guarded_pop_eq_none]
  have hf : filesUploaded pdf docx = true := process_some_filesUploaded pdf docx d hproc
  simp [rerun, hsync, hproc, hf]

/-- C1 as amended: a Language change between queries does force a fresh
SEEDED cycle — the query of the rerun runs over a chat freshly seeded from the
current content and new language, with no previously forwarded prompt — and
a click of the reset button destroys the chat handle, so the next query can
only be answered after reseeding.  A change of the uploaded documents alone,
however, does not invalidate the session (see the counterexample): the next
query is answered over the previously seeded chat. -/
theorem claim1_amended_invalidation :
    (∀ (st : SessionState) (oldLang newLang : String) (pdf : Option PdfFile)
        (docx : Option DocxFile) (p d : String) (oc : StreamOutcome),
      st.language = some oldLang → newLang ≠ oldLang →
      process_document_content pdf docx = some d →
      ∃ c, ((rerun st newLang pdf docx (some p) oc false).1).chat = some c ∧
        c.history = seedHistory d newLang ∧
        c.sent = if p = "" then [] else [p]) ∧
    (∀ (st : SessionState) (lang : String) (pdf : Option PdfFile) (docx : Option DocxFile)
        (prompt : Option String) (oc : StreamOutcome) (d : String),
      process_document_content pdf docx = some d →
      ((rerun st lang pdf docx prompt oc true).1).chat = none) := by
  constructor
  · intro st oldLang newLang pdf docx p d oc hlang hne hproc
    have hd : d ≠ "" := hasNonSpace_ne_empty (process_document_content_hasNonSpace pdf docx d hproc)
    rw [rerun_after_language_change st oldLang newLang pdf docx (some p) oc d hlang hne hproc]
    refine ⟨{ history := seedHistory d newLang, sent := if p = "" then [] else [p] }, ?_, rfl, rfl⟩
    exact chatbot_interface_fresh_chat _ d newLang (some p) oc rfl hd
  · intro st lang pdf docx prompt oc d hproc
    have hf : filesUploaded pdf docx = true := process_some_filesUploaded pdf docx d hproc
    simp [rerun, hproc, hf, reset_chat, guarded_pop_eq_none]

/-- Witness for C1 (amended): a language switch from English to Marathi
reseeds before the query is answered. -/
theorem claim1_witness :
    ∃ c, ((rerun sampleSeeded "मराठी" (some (.ok ["DocB"])) none (some "q")
        (.ok []) false).1).chat = some c ∧
      c.history = seedHistory "[Page 1]\nDocB" "मराठी" ∧
      c.sent = if "q" = "" then [] else ["q"] :=
  claim1_amended_invalidation.1 sampleSeeded "English" "मराठी" (some (.ok ["DocB"])) none
    "q" "[Page 1]\nDocB" (.ok []) rfl (by decide) rfl

theorem language_sync_messages (st : SessionState) (l : String) :
    (language_sync st l).messages = st.messages ∨ (language_sync st l).messages = none := by
  unfold language_sync
  cases hl : st.language with
  | none => exact Or.inl rfl
  | some old =>
    by_cases h : l = old
    · simp [h]
    · simp [h, guarded_pop_eq_none]

theorem chatbot_interface_messages_cases (st : SessionState) (d l : String)
    (prompt : Option String) (oc : StreamOutcome) (t' : List Msg) (m : Msg)
    (h : ((chatbot_interface st d l prompt oc).1).messages = some t') (hm : m ∈ t') :
    (∃ t, st.messages = some t ∧ m ∈ t) ∨
    (∃ p, prompt = some p ∧ p ≠ "" ∧
      (m = { role := "user", content := p } ∨
        ∃ chunks, oc = .ok chunks ∧
          m = { role := "assistant", content := accumulate chunks })) := by
  by_cases hd : d = ""
  · simp [chatbot_interface, hd] at h
    exact Or.inl ⟨t', h, hm⟩
  · cases hst : st.messages with
    | none =>
      cases prompt with
      | none =>
        simp [chatbot_interface, hd, hst] at h
        subst h
        simp at hm
      | some p =>
        by_cases hp : p = ""
        · simp [chatbot_interface, hd, hst, hp] at h
          subst h
          simp at hm
        · cases oc with
          | ok chunks =>
            simp [chatbot_interface, hd, hst, hp] at h
            subst h
            simp only [List.mem_cons, List.not_mem_nil, or_false] at hm
            rcases hm with hm | hm
            · exact Or.inr ⟨p, rfl, hp, Or.inl hm⟩
            · exact Or.inr ⟨p, rfl, hp, Or.inr ⟨chunks, rfl, hm⟩⟩
          | fail consumed e =>
            simp [chatbot_interface, hd, hst, hp] at h
            subst h
            simp only [List.mem_cons, List.not_mem_nil, or_false] at hm
            exact Or.inr ⟨p, rfl, hp, Or.inl hm⟩
    | some t0 =>
      cases prompt with
      | none =>
        simp [chatbot_interface, hd, hst] at h
        subst h
        exact Or.inl ⟨t0, rfl, hm⟩
      | some p =>
        by_cases hp : p = ""
        · simp [chatbot_interface, hd, hst, hp] at h
          subst h
          exact Or.inl ⟨t0, rfl, hm⟩
        · cases oc with
          | ok chunks =>
            simp [chatbot_interface, hd, hst, hp] at h
            subst h
            rcases List.mem_append.mp hm with hm1 | hm2
            · exact Or.inl ⟨t0, rfl, hm1⟩
            · simp only [List.mem_cons, List.not_mem_nil, or_false] at hm2
              rcases hm2 with hm2 | hm2
              · exact Or.inr ⟨p, rfl, hp, Or.inl hm2⟩
              · exact Or.inr ⟨p, rfl, hp, Or.inr ⟨chunks, rfl, hm2⟩⟩
          | fail consumed e =>
            simp [chatbot_interface, hd, hst, hp] at h
            subst h
            rcases List.mem_append.mp hm with hm1 | hm2
            · exact Or.inl ⟨t0, rfl, hm1⟩
            · simp only [List.mem_cons, List.not_mem_nil, or_false] at hm2
              exact Or.inr ⟨p, rfl, hp, Or.inl hm2⟩

theorem runOp_messages_cases (st : SessionState) (op : Op) (t' : List Msg) (m : Msg)
    (h : (runOp st op).messages = some t') (hm : m ∈ t') :
    (∃ t, st.messages = some t ∧ m ∈ t) ∨ stepGenuine op m := by
  obtain ⟨lang, pdf, docx, prompt, oc, rc⟩ := op
  simp only [runOp, rerun] at h
  by_cases hf : filesUploaded pdf docx = true
  · rw [if_pos hf] at h
    cases hproc : process_document_content pdf docx with
    | none =>
      rw [hproc] at h
      rcases language_sync_messages st lang with hs | hs
      · rw [hs] at h
        exact Or.inl ⟨t', h, hm⟩
      · rw [hs] at h
        exact Option.noConfusion h
    | some content =>
      rw [hproc] at h
      cases rc with
      | true =>
        simp [reset_chat, guarded_pop_eq_none] at h
      | false =>
        simp only [Bool.false_eq_true, if_false] at h
        rcases chatbot_interface_messages_cases (language_sync st lang) content
            ((language_sync st lang).language.getD lang) prompt oc t' m h hm with
          ⟨t, hts, hmt⟩ | ⟨p, hpe, hpne, hcase⟩
        · rcases language_sync_messages st lang with hs | hs
          · rw [hs] at hts
            exact Or.inl ⟨t, hts, hmt⟩
          · rw [hs] at hts
            exact Option.noConfusion hts
        · right
          rcases hcase with rfl | ⟨chunks, rfl, rfl⟩
          · exact Or.inl ⟨rfl, hpe, hpne⟩
          · exact Or.inr ⟨rfl, chunks, rfl, rfl⟩
  · rw [if_neg hf] at h
    rcases language_sync_messages st lang with hs | hs
    · rw [hs] at h
      exact Or.inl ⟨t', h, hm⟩
    · rw [hs] at h
      exact Option.noConfusion h

theorem runOps_messages_genuine (ops : List Op) :
    ∀ (st : SessionState) (t' : List Msg) (m : Msg),
      (runOps st ops).messages = some t' → m ∈ t' →
      (∃ t, st.messages = some t ∧ m ∈ t) ∨ genuineEntry ops m := by
  induction ops with
  | nil =>
    intro st t' m h hm
    exact Or.inl ⟨t', h, hm⟩
  | cons op ops ih =>
    intro st t' m h hm
    rcases ih (runOp st op) t' m (by simpa [runOps] using h) hm with ⟨t, ht, hmt⟩ | hg
    · rcases runOp_messages_cases st op t m ht hmt with h1 | h2
      · exact Or.inl h1
      · exact Or.inr ⟨op, List.mem_cons_self op ops, h2⟩
    · rcases hg with ⟨op', hop', hs⟩
      exact Or.inr ⟨op', List.mem_cons_of_mem op hop', hs⟩

/-- C9: the transcript starts absent (initialized to the empty list only at
seeding time) and, over every sequence of reruns from process start, every
entry it ever holds is genuine: a non-empty prompt some rerun actually
submitted, or the accumulated text of a stream some rerun consumed to
completion.  The four priming messages live only in the chat handle's
seeded history, never in the transcript. -/
theorem claim9_transcript_genuine :
    initialState.messages = none ∧
    ∀ (ops : List Op) (t : List Msg) (m : Msg),
      (runOps initialState ops).messages = some t → m ∈ t → genuineEntry ops m := by
  refine ⟨rfl, ?_⟩
  intro ops t m h hm
  rcases runOps_messages_genuine ops initialState t m h hm with ⟨t0, ht0, _⟩ | hg
  · exact Option.noConfusion ht0
  · exact hg

/-- Witness for C9: in a one-rerun run, the user entry of the resulting
transcript is genuine. -/
theorem claim9_witness :
    genuineEntry [sampleOp] { role := "user", content := "hello" } :=
  claim9_transcript_genuine.2 [sampleOp]
    [{ role := "user", content := "hello" }, { role := "assistant", content := "world" }]
    { role := "user", content := "hello" } rfl (by simp)

theorem find?_append_of_none {α : Type} (p : α → Bool) (pre rest : List α)
    (h : ∀ e ∈ pre, p e = false) :
    List.find? p (pre ++ rest) = List.find? p rest := by
  induction pre with
  | nil => rfl
  | cons a l ih =>
    have ha : p a = false := h a (List.mem_cons_self a l)
    simp only [List.cons_append, List.find?_cons, ha]
    exact ih (fun e he => h e (List.mem_cons_of_mem a he))

/-- C3: the Auxiliary Matcher (modelled from the spec, see
`match_meta_image`): an absent assets directory yields no candidates and no
error; when no candidate label occurs case-insensitively in the response it
returns nothing; the first entry (in directory-listing order) whose label
occurs case-insensitively as a substring is returned with its asset path;
and the concrete example of the spec behaves as stated. -/
theorem claim3_matcher_spec :
    (∀ r, match_meta_image none r = none) ∧
    (∀ (entries : List (String × String)) (r : String),
      (∀ e ∈ entries, occursIn (lowerChars e.1) (lowerChars r) = false) →
      match_meta_image (some entries) r = none) ∧
    (∀ (pre post : List (String × String)) (e : String × String) (r : String),
      (∀ e' ∈ pre, occursIn (lowerChars e'.1) (lowerChars r) = false) →
      occursIn (lowerChars e.1) (lowerChars r) = true →
      match_meta_image (some (pre ++ e :: post)) r = some e) ∧
    match_meta_image (some [("acme-logo", "meta_images/acme-logo.png")])
      "Acme-Logo financial results" = some ("acme-logo", "meta_images/acme-logo.png") ∧
    match_meta_image (some [("acme-logo", "meta_images/acme-logo.png")])
      "quarterly results" = none := by
  refine ⟨fun r => rfl, ?_, ?_, by decide, by decide⟩
  · intro entries r h
    simp only [match_meta_image]
    exact List.find?_eq_none.mpr (fun e he => by simp [h e he])
  · intro pre post e r hpre he
    simp only [match_meta_image]
    rw [find?_append_of_none _ pre _ (fun e' h' => hpre e' h')]
    simp [List.find?_cons, he]

/-- Witness for C3: with a non-matching entry listed first, the first
matching entry is returned. -/
theorem claim3_witness :
    match_meta_image
        (some [("zzz", "meta_images/zzz.png"), ("acme-logo", "meta_images/acme-logo.png")])
        "Acme-Logo report" = some ("acme-logo", "meta_images/acme-logo.png") :=
  claim3_matcher_spec.2.2.1 [("zzz", "meta_images/zzz.png")] []
    ("acme-logo", "meta_images/acme-logo.png") "Acme-Logo report" (by decide) (by decide)
